import Mathlib

/-!
Shallow embedding of the java_test_mcp build/test orchestration engine
(src/src/java_test_mcp/utils.py, the final server draft
src/src/java_test_mcp/server.py, and the legacy draft
src/java_test_mcp/server.py).

Paths are POSIX, matching the platform the repository targets: os.pathsep
is the colon and os.sep is the slash.  Python string operations are
re-implemented over character lists so that everything evaluates inside
the kernel; the filesystem (glob.glob) and subprocess execution are
abstracted as explicit function or record parameters.  Character classes
of the regular expressions are modelled over their ASCII fragments.
-/

/-- os.pathsep on POSIX. -/
def pathsep : String := ":"

/-- os.pathsep as a character, for splitting. -/
def pathsepChar : Char := ':'

/-- os.path.isabs for POSIX paths: absolute iff the path starts with a slash. -/
def isabs (p : String) : Bool :=
  match p.toList with
  | '/' :: _ => true
  | _ => false

/-- True iff the string ends with a slash (the check posixpath.join makes). -/
def endsWithSlash (s : String) : Bool :=
  match s.toList.reverse with
  | '/' :: _ => true
  | _ => false

/-- posixpath.join for a single right operand. -/
def pyJoin (a b : String) : String :=
  if isabs b then b
  else if a = "" || endsWithSlash a then a ++ b
  else a ++ "/" ++ b

/-- posixpath.basename: the part after the last slash. -/
def pyBasename (p : String) : String :=
  String.mk ((p.toList.reverse.takeWhile (fun c => c ≠ '/')).reverse)

/-- posixpath.dirname: the part up to the last slash, trailing slashes
    stripped unless the head consists only of slashes. -/
def pyDirname (p : String) : String :=
  let headRev := p.toList.reverse.dropWhile (fun c => c ≠ '/')
  if headRev = [] then ""
  else if headRev.all (fun c => c = '/') then String.mk headRev.reverse
  else String.mk ((headRev.dropWhile (fun c => c = '/')).reverse)

/-- Python str.split with a single-character separator (str.split keeps
    empty fields, and the empty string yields one empty field). -/
def pySplitAux (sep : Char) : List Char → List Char → List (List Char)
  | [], acc => [acc.reverse]
  | c :: rest, acc =>
    if c = sep then acc.reverse :: pySplitAux sep rest []
    else pySplitAux sep rest (c :: acc)

/-- Python str.split with a single-character separator. -/
def pySplit (s : String) (sep : Char) : List String :=
  (pySplitAux sep s.toList []).map String.mk

/-- Python sep.join. -/
def joinSep (sep : String) : List String → String
  | [] => ""
  | [x] => x
  | x :: rest => x ++ sep ++ joinSep sep rest

/-- Python str.startswith. -/
def pyStartsWith (s pre : String) : Bool :=
  pre.toList.isPrefixOf s.toList

/-- True iff the string contains a star (the wildcard test of the source). -/
def hasStar (s : String) : Bool := s.toList.contains '*'

/-- True iff the character list contains two consecutive stars. -/
def hasStarStarAux : List Char → Bool
  | '*' :: '*' :: _ => true
  | _ :: rest => hasStarStarAux rest
  | [] => false

/-- True iff the string contains the recursive wildcard token. -/
def hasStarStar (s : String) : Bool := hasStarStarAux s.toList

/-- utils.resolve_workspace_path: absolute paths pass through, relative
    paths are joined under the workspace root. -/
def resolve_workspace_path (relative_path : String) (workspace_path : String) : String :=
  if isabs relative_path then relative_path else pyJoin workspace_path relative_path

/-- utils.resolve_classpath: split the classpath on os.pathsep, join each
    entry under the workspace, and rejoin; the empty classpath resolves to
    the current-directory marker. -/
def resolve_classpath (classpath : String) (workspace_path : String) : String :=
  if classpath = "" then "."
  else
    let entries := pySplit classpath pathsepChar
    let resolved_entries := entries.map (fun entry => resolve_workspace_path entry workspace_path)
    joinSep pathsep resolved_entries

/-- utils.resolve_file_list.  The filesystem is abstracted by globFn:
    globFn pattern recursive is the list glob.glob returns, in filesystem
    enumeration order. -/
def resolve_file_list (globFn : String → Bool → List String)
    (files : List String) (workspace_path : String) : List String :=
  files.flatMap (fun file_path =>
    if hasStar file_path then
      let base_dir := pyDirname file_path
      let base_dir2 := resolve_workspace_path base_dir workspace_path
      let pattern := pyJoin base_dir2 (pyBasename file_path)
      globFn pattern (hasStarStar pattern)
    else [resolve_workspace_path file_path workspace_path])

/-- Legacy draft (src/java_test_mcp/server.py) resolve_client_path, with
    the module-level client_workspace global passed explicitly. -/
def resolve_client_path (client_workspace : String) (relative_path : String) : String :=
  if isabs relative_path then relative_path else pyJoin client_workspace relative_path

/-- Legacy draft (src/java_test_mcp/server.py) resolve_classpath: splits on
    the colon and glob-expands wildcard entries; globFn abstracts glob.glob
    (non-recursive). -/
def legacy_resolve_classpath (globFn : String → List String)
    (client_workspace : String) (classpath : String) : String :=
  if classpath = "" then "."
  else
    let entries := pySplit classpath ':'
    let resolved_entries := entries.flatMap (fun entry =>
      if hasStar entry then
        let base_dir := pyDirname entry
        let pattern := pyBasename entry
        let base_dir2 := resolve_client_path client_workspace base_dir
        globFn (pyJoin base_dir2 pattern)
      else [resolve_client_path client_workspace entry])
    joinSep ":" resolved_entries

/-- Final server draft (src/src/java_test_mcp/server.py) resolve_classpath,
    with the module-level default_class_path and client_workspace_path
    globals passed explicitly; an absent classpath argument is none.  Its
    resolve_workspace_path helper is resolve_client_path above. -/
def server_resolve_classpath (default_class_path client_workspace_path : String)
    (classpath : Option String) : String :=
  let cp := classpath.getD ""
  if cp = "" then
    if default_class_path ≠ "" then default_class_path else "."
  else
    let entries := pySplit cp pathsepChar
    let resolved := joinSep pathsep
      (entries.map (fun entry => resolve_client_path client_workspace_path entry))
    if default_class_path ≠ "" then resolved ++ pathsep ++ default_class_path
    else resolved

/-- Python str.splitlines over the ASCII line terminators (newline,
    carriage return, carriage return + newline, vertical tab, form feed);
    no trailing empty line is produced. -/
def pySplitlinesAux : List Char → List Char → List (List Char)
  | [], acc => if acc = [] then [] else [acc.reverse]
  | '\r' :: '\n' :: rest, acc => acc.reverse :: pySplitlinesAux rest []
  | '\r' :: rest, acc => acc.reverse :: pySplitlinesAux rest []
  | '\n' :: rest, acc => acc.reverse :: pySplitlinesAux rest []
  | '\x0b' :: rest, acc => acc.reverse :: pySplitlinesAux rest []
  | '\x0c' :: rest, acc => acc.reverse :: pySplitlinesAux rest []
  | c :: rest, acc => pySplitlinesAux rest (c :: acc)

/-- Python str.splitlines (ASCII fragment). -/
def pySplitlines (s : String) : List String :=
  (pySplitlinesAux s.toList []).map String.mk

/-- Result of one subprocess run: the exit code, the captured stdout, and
    the text the child wrote to the scratch stderr file. -/
structure ProcResult where
  returncode : Int
  stdout : String
  stderrFile : String
  deriving DecidableEq

/-- utils.run_command_stderr_from_file: returns exit code, stdout, and the
    decoded stderr, which is read back from the scratch file only when the
    exit code is nonzero (otherwise it stays empty). -/
def run_command_stderr_from_file (r : ProcResult) : Int × String × String :=
  (r.returncode, r.stdout, if r.returncode ≠ 0 then r.stderrFile else "")

/-- True iff ".java:" occurs in cs at position i. -/
def javaColonAt (cs : List Char) (i : Nat) : Bool :=
  match cs.drop i with
  | '.' :: 'j' :: 'a' :: 'v' :: 'a' :: ':' :: _ => true
  | _ => false

/-- re.search of the compile_java_files error pattern (.*\.java): applied
    to one diagnostic line: the greedy group captures the line prefix up to
    and including the last ".java" that a colon follows. -/
def findErrorFile (line : String) : Option String :=
  let cs := line.toList
  match (List.range cs.length).foldl
      (fun acc i => if javaColonAt cs i then some i else acc) none with
  | some i => some (String.mk (cs.take (i + 5)))
  | none => none

/-- The compile_java_files diagnostic scan: the set of source files
    implicated by at least one error line of the captured stderr. -/
def collectErrorFiles (stderr_decoded : String) : Finset String :=
  (pySplitlines stderr_decoded).foldl
    (fun s line =>
      match findErrorFile line with
      | some f => insert f s
      | none => s) ∅

/-- Structured outcome of compile_java_files; partSuccess carries the
    partial_success payload of the source. -/
inductive CompileOutcome where
  | success (compiled_files : List String)
  | partSuccess (compiled_files : Finset String) (failed_files : Finset String) (stderr : String)
  deriving DecidableEq

/-- The exceptions compile_java_files raises: ValueError on an empty file
    list, subprocess.CalledProcessError on a failed compile. -/
inductive CompileError where
  | invalidInput (msg : String)
  | calledProcessError (returncode : Int) (stderr : String)
  deriving DecidableEq

deriving instance DecidableEq for Except

/-- utils.compile_java_files over an abstracted subprocess: run1 and run2
    are the results the first and (if reached) second javac invocation
    produce.  The second component records the set of source files passed
    to each javac invocation actually made, in order (Python iterates the
    retry set in unspecified hash order, so invocations are recorded as
    file sets). -/
def compile_java_files (source_files : List String) (output_dir classpath : String)
    (run1 run2 : ProcResult) :
    Except CompileError CompileOutcome × List (Finset String) :=
  if source_files = [] then
    (Except.error (CompileError.invalidInput "No Java files found to compile"), [])
  else
    let r1 := run_command_stderr_from_file run1
    let returncode := r1.1
    let stderr_decoded := r1.2.2
    if stderr_decoded ≠ "" then
      let error_files := collectErrorFiles stderr_decoded
      let remaining := source_files.toFinset \ error_files
      if remaining = ∅ then
        (Except.error (CompileError.calledProcessError returncode stderr_decoded),
         [source_files.toFinset])
      else
        let r2 := run_command_stderr_from_file run2
        let returncode2 := r2.1
        let stderr_decoded2 := r2.2.2
        if returncode2 ≠ 0 then
          (Except.error (CompileError.calledProcessError returncode2 stderr_decoded2),
           [source_files.toFinset, remaining])
        else
          (Except.ok (CompileOutcome.partSuccess remaining error_files stderr_decoded2),
           [source_files.toFinset, remaining])
    else
      (Except.ok (CompileOutcome.success source_files), [source_files.toFinset])

/-- utils.java_compile: resolve the source specs, the classpath and the
    output directory, append additional_classpath when truthy, and delegate
    to compile_java_files. -/
def java_compile (globFn : String → Bool → List String)
    (source_files : List String)
    (output_dir classpath workspace_path additional_classpath : String)
    (run1 run2 : ProcResult) :
    Except CompileError CompileOutcome × List (Finset String) :=
  let resolved_file := resolve_file_list globFn source_files workspace_path
  let classpath2 := resolve_classpath classpath workspace_path
  let output_dir2 := resolve_workspace_path output_dir workspace_path
  let classpath3 :=
    if additional_classpath ≠ "" then classpath2 ++ pathsep ++ additional_classpath
    else classpath2
  compile_java_files resolved_file output_dir2 classpath3 run1 run2

/-- utils.run_junit test-selection arguments (the tail of the command
    line): each entry of test_classes yields one select-class option, the
    entry qualified with package_name only when package_name is truthy and
    the entry does not already start with it; an empty test_classes list
    scans the test directory instead. -/
def selectClassArgs (package_name : String) (test_classes : List String)
    (test_dir : String) : List String :=
  if test_classes ≠ [] then
    test_classes.flatMap (fun test_class =>
      if package_name ≠ "" ∧ pyStartsWith test_class package_name = false then
        ["--select-class", package_name ++ "." ++ test_class]
      else
        ["--select-class", test_class])
  else ["--scan-classpath", test_dir]

/-- Round to the nearest integer, ties to even: Python round on exact
    values.  Written over the numerator and denominator so it evaluates
    inside the kernel: with f the floor of q, the fractional part
    (q.num - f * q.den) / q.den is compared against one half through the
    equivalent integer comparison of 2 * (q.num - f * q.den) with q.den. -/
def roundHalfEven (q : ℚ) : ℤ :=
  let f := Int.fdiv q.num q.den
  let r2 := 2 * (q.num - f * q.den)
  if r2 < (q.den : ℤ) then f
  else if (q.den : ℤ) < r2 then f + 1
  else if f % 2 = 0 then f else f + 1

/-- Python round(x, 2) on exact rational values: round half to even at the
    second decimal (q * 100 and the final quotient are formed with
    Rat.divInt so the kernel can evaluate them). -/
def pyRound2 (q : ℚ) : ℚ := Rat.divInt (roundHalfEven (Rat.divInt (q.num * 100) q.den)) 100

/-- A counter element of the coverage XML: attributes type, missed,
    covered. -/
structure Counter where
  type : String
  missed : Nat
  covered : Nat
  deriving DecidableEq

/-- A class element of the coverage XML: attribute name plus its counter
    children. -/
structure ClassElem where
  name : String
  counters : List Counter
  deriving DecidableEq

/-- A package element of the coverage XML: attribute name plus its class
    children. -/
structure PackageElem where
  name : String
  classes : List ClassElem
  deriving DecidableEq

/-- The normalized per-class coverage summary parse_coverage_report
    emits. -/
structure ClassCov where
  coverage_percentage : ℚ
  lines_covered : Nat
  total_lines : Nat
  deriving DecidableEq

/-- The source's counter loop: the first counter whose type is LINE (the
    loop breaks at the first hit). -/
def firstLineCounter : List Counter → Option Counter
  | [] => none
  | c :: rest => if c.type = "LINE" then some c else firstLineCounter rest

/-- The per-class body of parse_coverage_report: line_coverage is
    missed + covered of the first LINE counter (0 when there is none),
    line_covered its covered attribute, and the percentage is
    covered / total * 100 rounded to two decimals, or 0 when the total is
    zero. -/
def parseClassCov (counters : List Counter) : ClassCov :=
  let lc : Nat × Nat :=
    match firstLineCounter counters with
    | some c => (c.missed + c.covered, c.covered)
    | none => (0, 0)
  let line_coverage := lc.1
  let line_covered := lc.2
  let coverage_percentage : ℚ :=
    if 0 < line_coverage then ((line_covered : ℚ) / (line_coverage : ℚ)) * 100 else 0
  { coverage_percentage := pyRound2 coverage_percentage,
    lines_covered := line_covered,
    total_lines := line_coverage }

/-- utils.parse_coverage_report over the consumed XML shape; the Python
    dicts keyed by package and class name are modelled as insertion-ordered
    entry lists (names within one report are distinct). -/
def parse_coverage_report (pkgs : List PackageElem) :
    List (String × List (String × ClassCov)) :=
  pkgs.map (fun p => (p.name, p.classes.map (fun c => (c.name, parseClassCov c.counters))))

/-- ASCII fragment of the regex class \d. -/
def isDigitChar (c : Char) : Bool := c.isDigit

/-- ASCII fragment of the regex class \w. -/
def isWordChar (c : Char) : Bool := c.isAlpha || c.isDigit || c == '_'

/-- ASCII fragment of the regex class \s. -/
def isSpaceChar (c : Char) : Bool :=
  c == ' ' || c == '\t' || c == '\n' || c == '\r' || c == '\x0b' || c == '\x0c'

/-- Python str.strip over the modelled whitespace class. -/
def pyStrip (cs : List Char) : List Char :=
  ((cs.dropWhile isSpaceChar).reverse.dropWhile isSpaceChar).reverse

/-- Value of a decimal digit string (int() on the captured group). -/
def natOfDigits (cs : List Char) : Nat :=
  cs.foldl (fun n c => 10 * n + (c.toNat - 48)) 0

/-- re.match of the junit_result_summary pattern
    \[\s*(\d+)\s+([\w\s]+)\s*\] against one line; the match is anchored at
    the start of the line only, so trailing text is allowed.  The greedy
    backtracking collapses to a deterministic scan: after the bracket,
    optional whitespace and then a nonempty digit run; after the digits,
    the maximal run of word-or-space characters must start with a space
    character, contain at least two characters (one for \s+ and one for
    the group), and be followed directly by the closing bracket.  The
    captured label, stripped, equals that run stripped, because the group
    is the run minus the whitespace the greedy \s+ absorbs. -/
def summaryMatch (line : String) : Option (Nat × String) :=
  match line.toList with
  | '[' :: rest =>
    let afterWs := rest.dropWhile isSpaceChar
    let digits := afterWs.takeWhile isDigitChar
    let afterDigits := afterWs.dropWhile isDigitChar
    if digits = [] then none
    else
      let run := afterDigits.takeWhile (fun c => isWordChar c || isSpaceChar c)
      let afterRun := afterDigits.dropWhile (fun c => isWordChar c || isSpaceChar c)
      match afterRun, run with
      | ']' :: _, c :: _ :: _ =>
        if isSpaceChar c then some (natOfDigits digits, String.mk (pyStrip run))
        else none
      | _, _ => none
  | _ => none

/-- Python dict assignment on an insertion-ordered association list:
    replace the value in place when the key exists, else append. -/
def dictInsert (m : List (String × Nat)) (k : String) (v : Nat) :
    List (String × Nat) :=
  match m with
  | [] => [(k, v)]
  | p :: rest => if p.1 = k then (k, v) :: rest else p :: dictInsert rest k v

/-- Lookup in an insertion-ordered association list. -/
def lookupKey (m : List (String × Nat)) (k : String) : Option Nat :=
  match m with
  | [] => none
  | p :: rest => if p.1 = k then some p.2 else lookupKey rest k

/-- The loop body of utils.junit_result_summary: a matching line stores its
    count under its stripped label; other lines are skipped. -/
def summaryStep (result : List (String × Nat)) (line : String) :
    List (String × Nat) :=
  match summaryMatch line with
  | some (value, key) => dictInsert result key value
  | none => result

/-- utils.junit_result_summary: fold the summary-line matches of each line
    of stdout into an insertion-ordered map. -/
def junit_result_summary (stdout_str : String) : List (String × Nat) :=
  (pySplitlines stdout_str).foldl summaryStep []

/-- The contribution of one line to the label k: its count when the line
    matches the summary pattern with label k, nothing otherwise. -/
def summarySel (k : String) (line : String) : Option Nat :=
  match summaryMatch line with
  | some (v, k2) => if k2 = k then some v else none
  | none => none

example : pyJoin "." "a.jar" = "./a.jar" := by decide
example : pyJoin "" "a.jar" = "a.jar" := by decide
example : pyDirname "lib/*" = "lib" := by decide
example : pyBasename "lib/*" = "*" := by decide
example : pyDirname "/x" = "/" := by decide
example : pyDirname "a//b" = "a" := by decide
example : pySplit "a.jar:lib/*" ':' = ["a.jar", "lib/*"] := by decide
example : resolve_classpath "a.jar:lib/*" "" = "a.jar:lib/*" := by decide
example : resolve_classpath "a.jar:lib/*" "." = "./a.jar:./lib/*" := by decide
example : resolve_classpath "" "." = "." := by decide
example : collectErrorFiles "B.java:3: error: x" = {"B.java"} := by decide
example : collectErrorFiles "" = ∅ := by decide
example : findErrorFile "tests/src/com/examples/HelloWorldTest.java:11: error: y"
    = some "tests/src/com/examples/HelloWorldTest.java" := by decide
example : summaryMatch "[         5 tests found          ]" = some (5, "tests found") := by decide
example : summaryMatch "[ 5 ]" = none := by decide
example : summaryMatch "[5x]" = none := by decide
example : summaryMatch "[ 12 34 tests ]" = some (12, "34 tests") := by decide
example : junit_result_summary "[ 5 tests found ]\n[ 2 tests failed ]"
    = [("tests found", 5), ("tests failed", 2)] := by decide
example : (parseClassCov [⟨"LINE", 3, 7⟩]).lines_covered = 7 := by decide
example : (parseClassCov [⟨"LINE", 3, 7⟩]).total_lines = 10 := by decide
example : parseClassCov [] = ⟨0, 0, 0⟩ := by decide
example : pyRound2 (Rat.divInt 100 3) = Rat.divInt 3333 100 := by decide
example : pyRound2 (Rat.divInt 25 1000) = Rat.divInt 2 100 := by decide
example : pyRound2 (Rat.divInt 35 1000) = Rat.divInt 4 100 := by decide
example : pyRound2 70 = 70 := by decide

/-- C7: when the explicit classpath argument is absent or empty, the final
    server draft's resolve_classpath yields the configured workspace-default
    classpath when one is set, and the current-directory marker otherwise. -/
theorem default_classpath_fallback (default_class_path client_workspace_path : String)
    (classpath : Option String)
    (h : classpath = none ∨ classpath = some "") :
    server_resolve_classpath default_class_path client_workspace_path classpath
      = if default_class_path ≠ "" then default_class_path else "." := by
  rcases h with h | h <;> subst h <;> rfl

/-- Witness for C7 at concrete inputs: a configured default is returned for
    an absent classpath; with no default the marker "." is returned for an
    empty classpath. -/
theorem default_classpath_fallback_witness :
    server_resolve_classpath "deps/a.jar" "." none = "deps/a.jar"
    ∧ server_resolve_classpath "" "." (some "") = "." := by
  have h1 := default_classpath_fallback "deps/a.jar" "." none (Or.inl rfl)
  have h2 := default_classpath_fallback "" "." (some "") (Or.inr rfl)
  exact ⟨h1.trans (by decide), h2.trans (by decide)⟩

/-- C6: a compile whose source specifications resolve to an empty file list
    raises the invalid-input error and invokes no compiler subprocess. -/
theorem invalid_input_no_invocation (globFn : String → Bool → List String)
    (source_files : List String)
    (output_dir classpath workspace_path additional_classpath : String)
    (run1 run2 : ProcResult)
    (h : resolve_file_list globFn source_files workspace_path = []) :
    java_compile globFn source_files output_dir classpath workspace_path
        additional_classpath run1 run2
      = (Except.error (CompileError.invalidInput "No Java files found to compile"), []) := by
  simp [java_compile, compile_java_files, h]

/-- Witness for C6: a wildcard spec with no filesystem matches resolves to
    the empty list, and the compile errors out with no invocation. -/
theorem invalid_input_no_invocation_witness :
    resolve_file_list (fun _ _ => []) ["src/*.java"] "." = []
    ∧ java_compile (fun _ _ => []) ["src/*.java"] "main/bin" "" "." "" ⟨0, "", ""⟩ ⟨0, "", ""⟩
      = (Except.error (CompileError.invalidInput "No Java files found to compile"), []) := by
  exact ⟨by decide,
    invalid_input_no_invocation (fun _ _ => []) ["src/*.java"] "main/bin" "" "." ""
      ⟨0, "", ""⟩ ⟨0, "", ""⟩ (by decide)⟩

/-- C9: when the first javac invocation produces empty captured stderr,
    compile_java_files reports full success with all resolved files marked
    compiled after exactly one invocation, regardless of the exit code. -/
theorem compile_success_from_empty_stderr (source_files : List String)
    (output_dir classpath : String) (run1 run2 : ProcResult)
    (hne : source_files ≠ [])
    (hstderr : run1.stderrFile = "") :
    compile_java_files source_files output_dir classpath run1 run2
      = (Except.ok (CompileOutcome.success source_files), [source_files.toFinset]) := by
  by_cases hrc : run1.returncode = 0 <;>
    simp [compile_java_files, run_command_stderr_from_file, hne, hstderr, hrc]

/-- Witness for C9: a nonzero exit code with nothing written to the stderr
    scratch file is reported as full success with one invocation. -/
theorem compile_success_from_empty_stderr_witness :
    compile_java_files ["A.java"] "main/bin" "." ⟨2, "", ""⟩ ⟨0, "", ""⟩
      = (Except.ok (CompileOutcome.success ["A.java"]), [(["A.java"] : List String).toFinset]) := by
  exact compile_success_from_empty_stderr ["A.java"] "main/bin" "." ⟨2, "", ""⟩ ⟨0, "", ""⟩
    (by decide) (by decide)

/-- C4: with a nonempty test-class list and a package filter, each entry
    yields exactly one select-class argument, qualified with the package
    filter and a dot only when the entry does not already start with the
    filter. -/
theorem select_class_qualification (package_name : String)
    (test_classes : List String) (test_dir : String)
    (hp : package_name ≠ "") (ht : test_classes ≠ []) :
    selectClassArgs package_name test_classes test_dir
      = test_classes.flatMap (fun test_class =>
          ["--select-class",
           if pyStartsWith test_class package_name then test_class
           else package_name ++ "." ++ test_class]) := by
  unfold selectClassArgs
  rw [if_pos ht]
  congr 1
  funext test_class
  by_cases h : pyStartsWith test_class package_name <;> simp [h, hp]

/-- Witness for C4: an unqualified entry is qualified with the package
    filter, an already-qualified entry passes through unchanged. -/
theorem select_class_qualification_witness :
    selectClassArgs "com.example" ["FooTest"] "test/bin"
      = ["--select-class", "com.example.FooTest"]
    ∧ selectClassArgs "com.example" ["com.example.FooTest"] "test/bin"
      = ["--select-class", "com.example.FooTest"] := by
  have h1 := select_class_qualification "com.example" ["FooTest"] "test/bin"
    (by decide) (by decide)
  have h2 := select_class_qualification "com.example" ["com.example.FooTest"] "test/bin"
    (by decide) (by decide)
  exact ⟨h1.trans (by decide), h2.trans (by decide)⟩

/-- C10: a non-wildcard entry contributes exactly its workspace-joined self,
    with no filesystem consultation; lists without wildcards are independent
    of the glob function entirely. -/
theorem plain_entries_passed_verbatim
    (globFn : String → Bool → List String)
    (files1 files2 : List String) (f : String) (workspace_path : String)
    (hf : hasStar f = false) :
    (resolve_file_list globFn (files1 ++ f :: files2) workspace_path
      = resolve_file_list globFn files1 workspace_path
        ++ resolve_workspace_path f workspace_path
          :: resolve_file_list globFn files2 workspace_path)
    ∧ ∀ (globFn2 : String → Bool → List String) (files : List String),
        (∀ fp ∈ files, hasStar fp = false) →
        resolve_file_list globFn files workspace_path
          = resolve_file_list globFn2 files workspace_path := by
  constructor
  · simp [resolve_file_list, hf]
  · intro globFn2 files hall
    induction files with
    | nil => rfl
    | cons a as ih =>
      have ha := hall a (List.mem_cons_self a as)
      have has := fun fp h => hall fp (List.mem_cons_of_mem a h)
      simp only [resolve_file_list, List.flatMap_cons] at ih ⊢
      rw [ha, ih has]
      simp

/-- Witness for C10: a nonexistent plain path is passed through verbatim
    next to a wildcard expansion, and a plain list ignores the glob
    function. -/
theorem plain_entries_passed_verbatim_witness :
    resolve_file_list (fun _ _ => ["src/Found.java"]) (["src/*.java"] ++ "Missing.java" :: []) "."
      = resolve_file_list (fun _ _ => ["src/Found.java"]) ["src/*.java"] "."
        ++ resolve_workspace_path "Missing.java" "."
          :: resolve_file_list (fun _ _ => ["src/Found.java"]) [] "."
    ∧ resolve_file_list (fun _ _ => ["src/Found.java"]) ["A.java", "B.java"] "."
      = resolve_file_list (fun _ _ => []) ["A.java", "B.java"] "." := by
  have h := plain_entries_passed_verbatim (fun _ _ => ["src/Found.java"])
    ["src/*.java"] [] "Missing.java" "." (by decide)
  exact ⟨h.1, h.2 (fun _ _ => []) ["A.java", "B.java"] (by decide)⟩

/-- C5 counterexample: compiling A.java and B.java where the first attempt
    implicates only B.java and the retry succeeds yields partial_success
    whose stderr field is empty, not the original first-attempt
    diagnostics "B.java:3: error: x". -/
theorem diagnostics_not_preserved_counterexample :
    (compile_java_files ["A.java", "B.java"] "main/bin" "."
        ⟨1, "", "B.java:3: error: x"⟩ ⟨0, "", ""⟩).1
      = Except.ok (CompileOutcome.partSuccess {"A.java"} {"B.java"} "")
    ∧ "" ≠ "B.java:3: error: x" := by
  exact ⟨by decide, by decide⟩

/-- C5 amended: on retry success the partial_success stderr field carries
    the retry invocation's captured stderr, which is empty because the
    retry exited cleanly — the original first-attempt diagnostics are
    discarded; compiled and failed still equal the retry set and the
    implicated set. -/
theorem diagnostics_field_retry_capture (source_files : List String)
    (output_dir classpath : String) (run1 run2 : ProcResult) (F : Finset String)
    (hne : source_files ≠ [])
    (hrc : run1.returncode ≠ 0)
    (hs : run1.stderrFile ≠ "")
    (hF : collectErrorFiles run1.stderrFile = F)
    (hrem : source_files.toFinset \ F ≠ ∅)
    (hrc2 : run2.returncode = 0) :
    (compile_java_files source_files output_dir classpath run1 run2).1
      = Except.ok (CompileOutcome.partSuccess (source_files.toFinset \ F) F "") := by
  simp [compile_java_files, run_command_stderr_from_file, hne, hrc, hs, hF, hrem, hrc2]

/-- Witness for C5 amended at the concrete counterexample inputs. -/
theorem diagnostics_field_retry_capture_witness :
    (compile_java_files ["A.java", "B.java"] "main/bin" "."
        ⟨1, "", "B.java:3: error: x"⟩ ⟨0, "stdout text", "ignored"⟩).1
      = Except.ok (CompileOutcome.partSuccess
          ((["A.java", "B.java"] : List String).toFinset \ {"B.java"}) {"B.java"} "") := by
  exact diagnostics_field_retry_capture ["A.java", "B.java"] "main/bin" "."
    ⟨1, "", "B.java:3: error: x"⟩ ⟨0, "stdout text", "ignored"⟩ {"B.java"}
    (by decide) (by decide) (by decide) (by decide) (by decide) (by decide)

/-- C1: when the first run fails and its diagnostics implicate a strict,
    nonempty subset F of the inputs, the compiler is re-invoked exactly
    once on inputs minus F, and on retry success the outcome is
    partial_success with compiled = inputs minus F and failed = F; when F
    is the whole input set, the outcome is the compile-failed error after a
    single invocation. -/
theorem compile_retry_invariant (source_files : List String)
    (output_dir classpath : String) (run1 run2 : ProcResult) (F : Finset String)
    (hne : source_files ≠ [])
    (hrc : run1.returncode ≠ 0)
    (hF : collectErrorFiles run1.stderrFile = F)
    (hsub : F ⊆ source_files.toFinset) :
    (F ≠ ∅ → F ≠ source_files.toFinset →
      (compile_java_files source_files output_dir classpath run1 run2).2
        = [source_files.toFinset, source_files.toFinset \ F]
      ∧ (run2.returncode = 0 →
          (compile_java_files source_files output_dir classpath run1 run2).1
            = Except.ok (CompileOutcome.partSuccess (source_files.toFinset \ F) F "")))
    ∧ (F = source_files.toFinset →
        (compile_java_files source_files output_dir classpath run1 run2).1
          = Except.error (CompileError.calledProcessError run1.returncode run1.stderrFile)
        ∧ (compile_java_files source_files output_dir classpath run1 run2).2
          = [source_files.toFinset]) := by
  have hToF : source_files.toFinset ≠ ∅ := by
    cases source_files with
    | nil => exact absurd rfl hne
    | cons a as => simp
  constructor
  · intro hFne hFstrict
    have hs : run1.stderrFile ≠ "" := by
      intro h0
      apply hFne
      rw [← hF, h0]
      rfl
    have hrem : source_files.toFinset \ F ≠ ∅ := by
      rw [Ne, Finset.sdiff_eq_empty_iff_subset]
      intro hsub2
      exact hFstrict (Finset.Subset.antisymm hsub hsub2)
    refine ⟨?_, ?_⟩
    · by_cases hrc2 : run2.returncode = 0 <;>
        simp [compile_java_files, run_command_stderr_from_file, hne, hrc, hs, hF, hrem, hrc2]
    · intro hrc2
      simp [compile_java_files, run_command_stderr_from_file, hne, hrc, hs, hF, hrem, hrc2]
  · intro hFall
    have hs : run1.stderrFile ≠ "" := by
      intro h0
      apply hToF
      rw [← hFall, ← hF, h0]
      rfl
    have hrem : source_files.toFinset \ F = ∅ := by
      rw [Finset.sdiff_eq_empty_iff_subset, hFall]
    constructor <;>
      simp [compile_java_files, run_command_stderr_from_file, hne, hrc, hs, hF, hrem]

/-- Witness for C1: compiling A.java and B.java with diagnostics
    implicating only B.java gives two invocations (the second on the
    remaining file) and a partial_success; with both files implicated the
    outcome is the compile-failed error after one invocation. -/
theorem compile_retry_invariant_witness :
    ((compile_java_files ["A.java", "B.java"] "main/bin" "."
        ⟨1, "", "B.java:3: error: x"⟩ ⟨0, "", ""⟩).2
      = [(["A.java", "B.java"] : List String).toFinset,
         (["A.java", "B.java"] : List String).toFinset \ {"B.java"}]
    ∧ (compile_java_files ["A.java", "B.java"] "main/bin" "."
        ⟨1, "", "B.java:3: error: x"⟩ ⟨0, "", ""⟩).1
      = Except.ok (CompileOutcome.partSuccess
          ((["A.java", "B.java"] : List String).toFinset \ {"B.java"}) {"B.java"} ""))
    ∧ (compile_java_files ["A.java"] "main/bin" "."
        ⟨1, "", "A.java:1: error: y"⟩ ⟨0, "", ""⟩).1
      = Except.error (CompileError.calledProcessError 1 "A.java:1: error: y")
    ∧ (compile_java_files ["A.java"] "main/bin" "."
        ⟨1, "", "A.java:1: error: y"⟩ ⟨0, "", ""⟩).2
      = [(["A.java"] : List String).toFinset] := by
  have h1 := compile_retry_invariant ["A.java", "B.java"] "main/bin" "."
    ⟨1, "", "B.java:3: error: x"⟩ ⟨0, "", ""⟩ {"B.java"}
    (by decide) (by decide) (by decide) (by decide)
  have h2 := compile_retry_invariant ["A.java"] "main/bin" "."
    ⟨1, "", "A.java:1: error: y"⟩ ⟨0, "", ""⟩ {"A.java"}
    (by decide) (by decide) (by decide) (by decide)
  have h1a := h1.1 (by decide) (by decide)
  exact ⟨⟨h1a.1, h1a.2 rfl⟩, h2.2 (by decide)⟩

/-- C3 counterexample: the final draft's resolve_classpath (utils.py) does
    not expand wildcard classpath entries — the explicit classpath
    "a.jar:lib/*" resolves to the literal "a.jar:lib/*" (workspace ""),
    never to "a.jar:lib/x.jar:lib/y.jar", whatever lib/ contains (the
    function never consults the filesystem). -/
theorem classpath_wildcard_not_expanded_counterexample :
    resolve_classpath "a.jar:lib/*" "" = "a.jar:lib/*"
    ∧ resolve_classpath "a.jar:lib/*" "" ≠ "a.jar:lib/x.jar:lib/y.jar" := by
  exact ⟨by decide, by decide⟩

/-- C3 amended: wildcard expansion of classpath entries exists only in the
    legacy server draft, where "a.jar:lib/*" with lib containing x.jar and
    y.jar resolves to "a.jar:lib/x.jar:lib/y.jar" in enumeration order; the
    final draft's resolve_classpath instead workspace-joins every
    separator-delimited entry verbatim, leaving wildcards unexpanded. -/
theorem classpath_entry_resolution (globFn : String → List String)
    (hg : globFn "lib/*" = ["lib/x.jar", "lib/y.jar"]) :
    legacy_resolve_classpath globFn "" "a.jar:lib/*" = "a.jar:lib/x.jar:lib/y.jar"
    ∧ ∀ (classpath workspace_path : String), classpath ≠ "" →
        resolve_classpath classpath workspace_path
          = joinSep pathsep ((pySplit classpath pathsepChar).map
              (fun entry => resolve_workspace_path entry workspace_path)) := by
  constructor
  · have h1 : legacy_resolve_classpath globFn "" "a.jar:lib/*"
        = joinSep ":" ("a.jar" :: (globFn "lib/*" ++ [])) := rfl
    rw [h1, hg]
    decide
  · intro classpath workspace_path h
    unfold resolve_classpath
    rw [if_neg h]

/-- Witness for C3 amended at a concrete glob function and classpath. -/
theorem classpath_entry_resolution_witness :
    legacy_resolve_classpath
        (fun p => if p = "lib/*" then ["lib/x.jar", "lib/y.jar"] else [])
        "" "a.jar:lib/*"
      = "a.jar:lib/x.jar:lib/y.jar"
    ∧ resolve_classpath "a.jar:lib/*" "."
      = joinSep pathsep ((pySplit "a.jar:lib/*" pathsepChar).map
          (fun entry => resolve_workspace_path entry ".")) := by
  have h := classpath_entry_resolution
    (fun p => if p = "lib/*" then ["lib/x.jar", "lib/y.jar"] else []) (by decide)
  exact ⟨h.1, h.2 "a.jar:lib/*" "." (by decide)⟩

/-- C2: every package element is reported with each class element mapped
    through the per-class parse, and for a class whose first LINE counter
    has attributes (missed, covered), the reported coverage_percentage is
    round(100 * covered / (missed + covered), 2) when missed + covered is
    positive and 0 when it is zero, lines_covered is covered, and
    total_lines is missed + covered. -/
theorem coverage_percentage_invariant :
    (∀ (pkgs : List PackageElem) (pkg : PackageElem), pkg ∈ pkgs →
      (pkg.name, pkg.classes.map (fun c => (c.name, parseClassCov c.counters)))
        ∈ parse_coverage_report pkgs)
    ∧ (∀ (counters : List Counter) (c : Counter),
        firstLineCounter counters = some c →
        (0 < c.missed + c.covered →
          (parseClassCov counters).coverage_percentage
            = pyRound2 (100 * (c.covered : ℚ) / ((c.missed : ℚ) + (c.covered : ℚ))))
        ∧ (c.missed + c.covered = 0 →
            (parseClassCov counters).coverage_percentage = 0)
        ∧ (parseClassCov counters).lines_covered = c.covered
        ∧ (parseClassCov counters).total_lines = c.missed + c.covered) := by
  constructor
  · intro pkgs pkg h
    exact List.mem_map_of_mem _ h
  · intro counters c h
    refine ⟨?_, ?_, ?_, ?_⟩
    · intro hpos
      simp only [parseClassCov, h]
      rw [if_pos hpos]
      congr 1
      push_cast
      ring
    · intro h0
      simp only [parseClassCov, h]
      rw [if_neg (by omega)]
      decide
    · simp [parseClassCov, h]
    · simp [parseClassCov, h]

/-- Witness for C2 at the spec scenario missed = 3, covered = 7: the parsed
    class reports 70 percent, 7 lines covered, 10 total. -/
theorem coverage_percentage_invariant_witness :
    (parseClassCov [⟨"LINE", 3, 7⟩]).coverage_percentage
      = pyRound2 (100 * ((7 : ℕ) : ℚ) / (((3 : ℕ) : ℚ) + ((7 : ℕ) : ℚ)))
    ∧ (parseClassCov [⟨"LINE", 3, 7⟩]).lines_covered = 7
    ∧ (parseClassCov [⟨"LINE", 3, 7⟩]).total_lines = 10
    ∧ (parseClassCov [⟨"LINE", 3, 7⟩]).coverage_percentage = 70
    ∧ ("pkg", [("Cls", parseClassCov [⟨"LINE", 3, 7⟩])])
        ∈ parse_coverage_report [⟨"pkg", [⟨"Cls", [⟨"LINE", 3, 7⟩]⟩]⟩] := by
  have h := coverage_percentage_invariant.2 [⟨"LINE", 3, 7⟩] ⟨"LINE", 3, 7⟩ rfl
  have hmem := coverage_percentage_invariant.1 [⟨"pkg", [⟨"Cls", [⟨"LINE", 3, 7⟩]⟩]⟩]
    ⟨"pkg", [⟨"Cls", [⟨"LINE", 3, 7⟩]⟩]⟩ (List.mem_cons_self _ _)
  have hpct := h.1 (by decide)
  have harg : (100 * ((7 : ℕ) : ℚ) / (((3 : ℕ) : ℚ) + ((7 : ℕ) : ℚ))) = 70 := by norm_num
  refine ⟨hpct, h.2.2.1, h.2.2.2, ?_, hmem⟩
  rw [hpct, harg]
  decide

theorem lookupKey_dictInsert_self (m : List (String × Nat)) (k : String) (v : Nat) :
    lookupKey (dictInsert m k v) k = some v := by
  induction m with
  | nil => simp [dictInsert, lookupKey]
  | cons p rest ih =>
    by_cases h : p.1 = k
    · simp [dictInsert, lookupKey, h]
    · simp [dictInsert, lookupKey, h, ih]

theorem lookupKey_dictInsert_ne (m : List (String × Nat)) (k k2 : String) (v : Nat)
    (h : k2 ≠ k) :
    lookupKey (dictInsert m k2 v) k = lookupKey m k := by
  induction m with
  | nil => simp [dictInsert, lookupKey, h]
  | cons p rest ih =>
    by_cases hp : p.1 = k2
    · simp [dictInsert, lookupKey, hp, h]
    · simp [dictInsert, lookupKey, hp, ih]

theorem getLast?_cons_of_getLast?_some {α : Type} (x : α) (l : List α) (w : α)
    (h : l.getLast? = some w) : (x :: l).getLast? = some w := by
  cases l with
  | nil => simp at h
  | cons y ys => rw [List.getLast?_cons_cons]; exact h

theorem lookupKey_foldl_summaryStep (ls : List String) (acc : List (String × Nat))
    (k : String) :
    lookupKey (ls.foldl summaryStep acc) k
      = (match (ls.filterMap (summarySel k)).getLast? with
         | some v => some v
         | none => lookupKey acc k) := by
  induction ls generalizing acc with
  | nil => simp
  | cons l rest ih =>
    rw [List.foldl_cons, ih]
    cases hm : summaryMatch l with
    | none =>
      have h1 : summaryStep acc l = acc := by simp [summaryStep, hm]
      have h2 : summarySel k l = none := by simp [summarySel, hm]
      rw [h1, List.filterMap_cons_none h2]
    | some p =>
      obtain ⟨v, k2⟩ := p
      have h1 : summaryStep acc l = dictInsert acc k2 v := by simp [summaryStep, hm]
      rw [h1]
      by_cases hk : k2 = k
      · subst hk
        have h2 : summarySel k2 l = some v := by simp [summarySel, hm]
        rw [List.filterMap_cons_some h2]
        cases hlast : (rest.filterMap (summarySel k2)).getLast? with
        | none =>
          have hempty : rest.filterMap (summarySel k2) = [] :=
            List.getLast?_eq_none_iff.mp hlast
          rw [hempty]
          simp [lookupKey_dictInsert_self]
        | some w =>
          rw [getLast?_cons_of_getLast?_some v _ w hlast]
      · have h2 : summarySel k l = none := by simp [summarySel, hm, hk]
        rw [List.filterMap_cons_none h2]
        cases (rest.filterMap (summarySel k)).getLast? with
        | none => exact lookupKey_dictInsert_ne acc k k2 v hk
        | some w => rfl

theorem foldl_summaryStep_of_no_match (ls : List String) (acc : List (String × Nat))
    (h : ∀ l ∈ ls, summaryMatch l = none) :
    ls.foldl summaryStep acc = acc := by
  induction ls generalizing acc with
  | nil => rfl
  | cons l rest ih =>
    rw [List.foldl_cons]
    have hl := h l (List.mem_cons_self l rest)
    have hstep : summaryStep acc l = acc := by simp [summaryStep, hl]
    rw [hstep]
    exact ih acc (fun x hx => h x (List.mem_cons_of_mem l hx))

/-- C8: for every label, the parsed summary's entry is determined by the
    lines matching the summary pattern with that label — it is the count of
    the last such line, and absent when no line matches (so lines not of
    the summary shape contribute nothing); when no line of the output
    matches at all, the summary is the empty mapping, not an error. -/
theorem junit_summary_characterization (stdout_str : String) :
    (∀ k : String,
      lookupKey (junit_result_summary stdout_str) k
        = ((pySplitlines stdout_str).filterMap (summarySel k)).getLast?)
    ∧ ((∀ line ∈ pySplitlines stdout_str, summaryMatch line = none) →
        junit_result_summary stdout_str = []) := by
  constructor
  · intro k
    rw [junit_result_summary, lookupKey_foldl_summaryStep]
    cases ((pySplitlines stdout_str).filterMap (summarySel k)).getLast? <;> rfl
  · intro hall
    rw [junit_result_summary]
    exact foldl_summaryStep_of_no_match _ _ hall

/-- Witness for C8: a summary line of the bracketed-count shape is mapped
    from its stripped label to its count, a malformed line contributes
    nothing, and output without summary lines yields the empty mapping. -/
theorem junit_summary_characterization_witness :
    lookupKey (junit_result_summary "[         5 tests found          ]\nnoise line")
        "tests found" = some 5
    ∧ lookupKey (junit_result_summary "[         5 tests found          ]\nnoise line")
        "missing label" = none
    ∧ junit_result_summary "Thanks for using JUnit!\nno summary here" = [] := by
  have h1 := (junit_summary_characterization
    "[         5 tests found          ]\nnoise line").1 "tests found"
  have h2 := (junit_summary_characterization
    "[         5 tests found          ]\nnoise line").1 "missing label"
  have h3 := (junit_summary_characterization "Thanks for using JUnit!\nno summary here").2
  exact ⟨h1.trans (by decide), h2.trans (by decide), h3 (by decide)⟩
